import Mathlib

/-!
# Verification of the qmd OpenRouter LLM layer

Shallow embedding of `src/openrouter.ts` and `src/llm.ts`.

Modelling conventions:
* JavaScript floating-point numbers that the claims never compute with
  (embedding components, rerank scores) are modelled as rationals `ℚ`;
  the float literal `0.01` is modelled as `1/100`.
* A provider HTTP call is I/O, so each method that performs one takes the
  outcome of that call as an explicit argument:
  `Except Unit R` where `.error ()` models the `fetch`/`request` throwing
  (non-2xx status or network failure) and `.ok r` models a parsed JSON
  response `r`.  The `try`/`catch` in each method then becomes a `match`.
* JavaScript truthiness on strings (`s || t` falls back on `""` and
  `undefined`) is modelled by `jsOrS`; on numbers (`n || d` falls back on
  `0` and `undefined`) by `jsOrN`; `arr || []` where `arr` is an array or
  `undefined` falls back only on `undefined`, modelled by `Option.getD`.
* `process.env` is modelled as a function `String → Option String`.
-/

namespace Qmd

/-- `QueryType` from `llm.ts`: `"lex" | "vec" | "hyde"`. -/
inductive QueryType where
  | lex
  | vec
  | hyde
deriving DecidableEq, Repr

/-- `Queryable` from `llm.ts`: a query variant tagged with its backend type. -/
structure Queryable where
  type : QueryType
  text : String
deriving DecidableEq, Repr

/-- `EmbeddingResult` from `llm.ts` (float components modelled as `ℚ`). -/
structure EmbeddingResult where
  embedding : List ℚ
  model : String
deriving DecidableEq, Repr

/-- `GenerateResult` from `llm.ts` (the optional `logprobs` field is never
produced by the OpenRouter implementation and is omitted). -/
structure GenerateResult where
  text : String
  model : String
  done : Bool
deriving DecidableEq, Repr

/-- `RerankDocument` from `llm.ts` (optional `title` omitted: `rerank` never
reads it). -/
structure RerankDocument where
  file : String
  text : String
deriving DecidableEq, Repr

/-- `RerankDocumentResult` from `llm.ts`. -/
structure RerankDocumentResult where
  file : String
  score : ℚ
  index : Nat
deriving DecidableEq, Repr

/-- `RerankResult` from `llm.ts`. -/
structure RerankResult where
  results : List RerankDocumentResult
  model : String
deriving DecidableEq, Repr

/-! ## JavaScript string helpers

The query-expansion parser in `openrouter.ts` uses the regular expression
`/^(vec|hyde):\s*(.+)$/i` (no `m` flag) on each line of the trimmed model
output, followed by `String.prototype.trim`. -/

/-- Characters matched by `\s` in a JavaScript regular expression and
stripped by `String.prototype.trim` (whitespace and line terminators). -/
def jsWhitespaceChar (c : Char) : Bool :=
  c = ' ' || c = '\t' || c = '\n' || c = '\r' || c = '\x0b' || c = '\x0c' ||
  c = '\u00A0' || c = '\u2028' || c = '\u2029' || c = '\uFEFF'

/-- Line terminators, which `.` in a JavaScript regular expression (without
the `s` flag) never matches. -/
def jsLineTerminator (c : Char) : Bool :=
  c = '\n' || c = '\r' || c = '\u2028' || c = '\u2029'

/-- `String.prototype.trim` on a list of characters. -/
def jsTrimList (l : List Char) : List Char :=
  ((l.dropWhile jsWhitespaceChar).reverse.dropWhile jsWhitespaceChar).reverse

/-- `a.split("\n")` for a JavaScript string, on its list of characters:
the (possibly empty) runs between `'\n'` occurrences, in order. -/
def splitNewline : List Char → List (List Char)
  | [] => [[]]
  | c :: rest =>
    if c = '\n' then [] :: splitNewline rest
    else
      match splitNewline rest with
      | [] => [[c]]
      | l :: ls => (c :: l) :: ls

/-- JavaScript `x || y` where `x` is a string or absent (`undefined`):
falls back to `y` exactly when `x` is absent or the empty string. -/
def jsOrS (x : Option String) (y : String) : String :=
  match x with
  | some s => if s = "" then y else s
  | none => y

/-- JavaScript `x || y` where `x` is a number or absent: falls back to `y`
exactly when `x` is absent or `0`. -/
def jsOrN (x : Option Nat) (y : Nat) : Nat :=
  match x with
  | some n => if n = 0 then y else n
  | none => y

/-! ## Query expansion (`openrouter.ts`, `expandQuery`)

`line.match(/^(vec|hyde):\s*(.+)$/i)`: the alternation must match at the
start of the line (case-insensitively) and be followed by `:`; then `\s*`
consumes greedily and `(.+)$` must cover the whole remainder of the line
with characters `.` can match.  Since `\s` matches every line terminator,
backtracking succeeds exactly when the remainder after the maximal
whitespace run is non-empty and free of line terminators, and the captured
group is that remainder. -/

/-- The match of `\s*(.+)$` against the part of the line after the colon:
`some c` is the captured group `match[2]`, `none` means the regex fails. -/
def matchCapture (rest : List Char) : Option (List Char) :=
  let c := rest.dropWhile jsWhitespaceChar
  if !c.isEmpty && c.all (fun ch => !jsLineTerminator ch) then some c else none

/-- Case-insensitive comparison of a character against a lowercase
character, as the `i` flag performs on a literal. -/
def lowerEq (c d : Char) : Bool :=
  c.toLower = d

/-- Does the line start with `vec:` case-insensitively? -/
def startsVecColon : List Char → Bool
  | v :: e :: c :: ':' :: _ => lowerEq v 'v' && lowerEq e 'e' && lowerEq c 'c'
  | _ => false

/-- Does the line start with `hyde:` case-insensitively? -/
def startsHydeColon : List Char → Bool
  | h :: y :: d :: e :: ':' :: _ =>
    lowerEq h 'h' && lowerEq y 'y' && lowerEq d 'd' && lowerEq e 'e'
  | _ => false

/-- The match of `/^(vec|hyde):\s*(.+)$/i` against one line:
`some (ty, c)` gives `match[1].toLowerCase()` as `ty` and `match[2]` as `c`. -/
def matchLine (line : List Char) : Option (QueryType × List Char) :=
  if startsVecColon line then
    (matchCapture (line.drop 4)).map (fun c => (QueryType.vec, c))
  else if startsHydeColon line then
    (matchCapture (line.drop 5)).map (fun c => (QueryType.hyde, c))
  else
    none

/-- `expandQuery` from `openrouter.ts`.  The outcome of the internal
`this.generate(prompt, …)` call is the argument `gen`:
`.error ()` models `generate` (or anything inside the `try`) throwing,
`.ok none` models `generate` returning `null`, and `.ok (some result)`
models a successful generation. -/
def expandQuery (query : String) (gen : Except Unit (Option GenerateResult)) :
    List Queryable :=
  match gen with
  | .error _ => [⟨QueryType.vec, query⟩]
  | .ok none => [⟨QueryType.vec, query⟩]
  | .ok (some result) =>
    let lines := splitNewline (jsTrimList result.text.data)
    let queryables := lines.filterMap (fun line =>
      match matchLine line with
      | some (ty, captured) =>
        let text := String.mk (jsTrimList captured)
        if text ≠ "" ∧ text ≠ query then some ⟨ty, text⟩ else none
      | none => none)
    ⟨QueryType.vec, query⟩ :: queryables

/-! ## Single-text embedding (`openrouter.ts`, `embed`) -/

/-- One item of the provider's `/embeddings` response for a single input. -/
structure EmbedDataItem where
  embedding : List ℚ
deriving DecidableEq, Repr

/-- The provider's `/embeddings` response for a single input. -/
structure EmbedResponse where
  data : List EmbedDataItem
  model : String
deriving DecidableEq, Repr

/-- `embed` from `openrouter.ts`.  `response.data[0]?.embedding || []`:
`data[0]?.embedding` is `undefined` only when `data` is empty (an array is
always truthy, so the `|| []` fallback fires exactly then). -/
def embed (resp : Except Unit EmbedResponse) : Option EmbeddingResult :=
  match resp with
  | .error _ => none
  | .ok r =>
    some { embedding := ((r.data.head?).map EmbedDataItem.embedding).getD []
           model := r.model }

/-! ## Batch embedding (`openrouter.ts`, `embedBatch`) -/

/-- One item of the provider's `/embeddings` response for a batched input:
the embedding plus the explicit `index` field. -/
structure BatchItem where
  embedding : List ℚ
  index : Nat
deriving DecidableEq, Repr

/-- The provider's `/embeddings` response for a batched input. -/
structure BatchEmbeddingsResponse where
  data : List BatchItem
  model : String
deriving DecidableEq, Repr

/-- `response.data.sort((a, b) => a.index - b.index)`: JavaScript
`Array.prototype.sort` is a stable sort placing `a` before `b` when the
comparator is non-positive, i.e. a stable sort by non-decreasing `index`. -/
def sortByIndex (data : List BatchItem) : List BatchItem :=
  data.mergeSort (fun a b => decide (a.index ≤ b.index))

/-- `embedBatch` from `openrouter.ts`. -/
def embedBatch (texts : List String)
    (resp : Except Unit BatchEmbeddingsResponse) : List (Option EmbeddingResult) :=
  if texts.isEmpty then []
  else
    match resp with
    | .error _ => texts.map (fun _ => none)
    | .ok r =>
      (sortByIndex r.data).map (fun item =>
        some { embedding := item.embedding, model := r.model })

/-! ## Generation (`openrouter.ts`, `generate`) -/

/-- `message` object of a chat-completion choice. -/
structure ChatMessage where
  content : String
deriving DecidableEq, Repr

/-- One choice of the provider's `/chat/completions` response. -/
structure ChatChoice where
  message : ChatMessage
deriving DecidableEq, Repr

/-- The provider's `/chat/completions` response. -/
structure ChatResponse where
  choices : List ChatChoice
  model : String
deriving DecidableEq, Repr

/-- `generate` from `openrouter.ts`.
`response.choices[0]?.message?.content || ""` falls back to `""` when
`choices` is empty or the content is the empty string. -/
def generate (resp : Except Unit ChatResponse) : Option GenerateResult :=
  match resp with
  | .error _ => none
  | .ok r =>
    some { text := jsOrS ((r.choices.head?).map (fun c => c.message.content)) ""
           model := r.model
           done := true }

/-! ## Model dimensionality and configuration (`openrouter.ts`) -/

/-- `DEFAULT_EMBED_MODEL` from `openrouter.ts`. -/
def DEFAULT_EMBED_MODEL : String := "openai/text-embedding-3-large"

/-- `DEFAULT_CHAT_MODEL` from `openrouter.ts`. -/
def DEFAULT_CHAT_MODEL : String := "openai/gpt-4o-mini"

/-- `OPENROUTER_API_BASE` from `openrouter.ts`. -/
def OPENROUTER_API_BASE : String := "https://openrouter.ai/api/v1"

/-- The `EMBEDDING_DIMENSIONS` record from `openrouter.ts`; `none` models a
model name absent from the record (`undefined` lookup). -/
def EMBEDDING_DIMENSIONS (model : String) : Option Nat :=
  if model = "openai/text-embedding-3-large" then some 3072
  else if model = "openai/text-embedding-3-small" then some 1536
  else if model = "openai/text-embedding-ada-002" then some 1536
  else none

/-- `getEmbeddingDimensions` from `openrouter.ts`:
`EMBEDDING_DIMENSIONS[this.embedModel] || 3072`. -/
def getEmbeddingDimensions (embedModel : String) : Nat :=
  jsOrN (EMBEDDING_DIMENSIONS embedModel) 3072

/-- `OpenRouterConfig` from `openrouter.ts`: every field optional. -/
structure OpenRouterConfig where
  apiKey : Option String := none
  embedModel : Option String := none
  chatModel : Option String := none
  baseUrl : Option String := none
deriving DecidableEq, Repr

/-- The private fields of a constructed `OpenRouterLLM` instance. -/
structure OpenRouterState where
  apiKey : String
  embedModel : String
  chatModel : String
  baseUrl : String
deriving DecidableEq, Repr

/-- The `OpenRouterLLM` constructor from `openrouter.ts`.  `env` models
`process.env`; a thrown `Error` is modelled as `.error` carrying the
message, and `.ok` carries the constructed instance's fields. -/
def makeOpenRouterLLM (config : OpenRouterConfig) (env : String → Option String) :
    Except String OpenRouterState :=
  let apiKey := jsOrS config.apiKey (jsOrS (env "OPENROUTER_API_KEY") "")
  if apiKey = "" then
    .error "OpenRouter API key required. Set OPENROUTER_API_KEY environment variable."
  else
    .ok { apiKey := apiKey
          embedModel := jsOrS config.embedModel
            (jsOrS (env "QMD_EMBED_MODEL") DEFAULT_EMBED_MODEL)
          chatModel := jsOrS config.chatModel
            (jsOrS (env "QMD_CHAT_MODEL") DEFAULT_CHAT_MODEL)
          baseUrl := jsOrS config.baseUrl OPENROUTER_API_BASE }

/-! ## Reranking (`openrouter.ts`, `rerank`) -/

/-- `rerank` from `openrouter.ts`: no-op reranking,
`documents.map((doc, index) => ({file: doc.file, score: 1 - index * 0.01, index}))`. -/
def rerank (query : String) (documents : List RerankDocument) : RerankResult :=
  { results := documents.enum.map (fun p =>
      { file := p.2.file, score := 1 - (p.1 : ℚ) * (1 / 100), index := p.1 })
    model := "none" }

/-! ## Default-instance singleton (`llm.ts`)

The module-level variable `let defaultLLM: OpenRouterLLM | null = null` and
the functions operating on it.  An `OpenRouterLLM` object is modelled by a
numeric identity: `new OpenRouterLLM()` yields the fresh identity `nextId`
(never reused, so JavaScript reference equality becomes identity equality).
The model assumes the constructor succeeds (an API key is configured; a
constructor throw, `makeOpenRouterLLM` above, would leave the module
variable unchanged).  `disposed` records, in order, the instances on which
`dispose()` has been invoked. -/

/-- The module-level state of `llm.ts`. -/
structure SingletonState where
  defaultLLM : Option Nat
  nextId : Nat
  disposed : List Nat
deriving DecidableEq, Repr

/-- `getDefaultLLM` from `llm.ts`: `if (!defaultLLM) defaultLLM = new
OpenRouterLLM(); return defaultLLM` (an object is always truthy, so the
check fires exactly on `null`). -/
def getDefaultLLM (s : SingletonState) : Nat × SingletonState :=
  match s.defaultLLM with
  | some i => (i, s)
  | none => (s.nextId, { s with defaultLLM := some s.nextId, nextId := s.nextId + 1 })

/-- `setDefaultLLM` from `llm.ts`. -/
def setDefaultLLM (llm : Option Nat) (s : SingletonState) : SingletonState :=
  { s with defaultLLM := llm }

/-- `disposeDefaultLLM` from `llm.ts`: when an instance is held, its
`dispose()` is awaited first (recorded in `disposed`) and the variable is
then cleared; otherwise nothing happens. -/
def disposeDefaultLLM (s : SingletonState) : SingletonState :=
  match s.defaultLLM with
  | some i => { s with defaultLLM := none, disposed := s.disposed ++ [i] }
  | none => s

/-- Strict ordering of batch items by their `index` field is vacuously
antisymmetric. -/
instance : IsAntisymm BatchItem (fun a b => a.index < b.index) :=
  ⟨fun _ _ h1 h2 => absurd h1 (Nat.lt_asymm h2)⟩

end Qmd

namespace Qmd

/-- C1: for every query string and every outcome of the generation call
(success, `null` result, or a thrown error), `expandQuery` returns a
non-empty list whose first element is `{type: vec, text: query}` with the
original query verbatim. -/
theorem expandQuery_head (query : String)
    (gen : Except Unit (Option GenerateResult)) :
    0 < (expandQuery query gen).length ∧
    (expandQuery query gen).head? = some ⟨QueryType.vec, query⟩ := by
  cases gen with
  | error e => simp [expandQuery]
  | ok o =>
    cases o with
    | none => simp [expandQuery]
    | some r => simp [expandQuery]

/-- C3: a failed provider request makes `embed` and `generate` return the
failure outcome `none` (rather than propagating the exception), and makes
`embedBatch` return exactly one `none` per input text, so its result has
the same length as the input list. -/
theorem providerFailure_returns_null (texts : List String) :
    embed (.error ()) = none ∧
    generate (.error ()) = none ∧
    embedBatch texts (.error ()) = texts.map (fun _ => none) ∧
    (embedBatch texts (.error ())).length = texts.length := by
  refine ⟨rfl, rfl, ?_, ?_⟩ <;> cases texts <;> simp [embedBatch]

/-- `jsOrN x y` is positive whenever the fallback `y` is positive and every
declared value is positive. -/
theorem jsOrN_pos (x : Option Nat) (y : Nat) (hy : 0 < y)
    (hx : ∀ n, x = some n → n ≠ 0 → 0 < n) : 0 < jsOrN x y := by
  cases x with
  | none => simpa [jsOrN]
  | some n =>
    by_cases h : n = 0
    · simp [jsOrN, h, hy]
    · simpa [jsOrN, h] using hx n rfl h

/-- C8: a successful embeddings response with an empty `data` array makes
`embed` return a non-null result whose embedding is the empty array; since
`getEmbeddingDimensions` is always positive, such a non-null result does
not carry a vector of the model's declared dimensionality. -/
theorem embed_emptyData_nonNull (m : String) :
    embed (.ok { data := [], model := m }) =
      some { embedding := [], model := m } ∧
    ∀ em, 0 < getEmbeddingDimensions em := by
  refine ⟨rfl, fun em => ?_⟩
  refine jsOrN_pos _ _ (by norm_num) (fun n hn h0 => ?_)
  exact Nat.pos_of_ne_zero h0

/-- C4: `rerank` is a no-op on ordering: it returns exactly one result per
input document, and the result at position `i` carries the file of the
`i`-th input document and the index `i`. -/
theorem rerank_preserves_order (q : String) (docs : List RerankDocument) :
    (rerank q docs).results.length = docs.length ∧
    (rerank q docs).model = "none" ∧
    ∀ i, i < docs.length →
      (rerank q docs).results[i]?.map RerankDocumentResult.file =
        docs[i]?.map RerankDocument.file ∧
      (rerank q docs).results[i]?.map RerankDocumentResult.index = some i := by
  refine ⟨by simp [rerank], rfl, fun i hi => ?_⟩
  have hd : docs[i]? = some docs[i] := List.getElem?_eq_getElem hi
  constructor <;> simp [rerank, List.getElem?_enum, hd]

/-- C4 witness. -/
theorem rerank_preserves_order_witness :
    (rerank "q" [⟨"a.txt", "x"⟩, ⟨"b.txt", "y"⟩]).results.length = 2 ∧
    (rerank "q" [⟨"a.txt", "x"⟩, ⟨"b.txt", "y"⟩]).results[1]?.map
      RerankDocumentResult.file = some "b.txt" ∧
    (rerank "q" [⟨"a.txt", "x"⟩, ⟨"b.txt", "y"⟩]).results[1]?.map
      RerankDocumentResult.index = some 1 := by
  have h := rerank_preserves_order "q" [⟨"a.txt", "x"⟩, ⟨"b.txt", "y"⟩]
  exact ⟨h.1, (h.2.2 1 (by norm_num)).1, (h.2.2 1 (by norm_num)).2⟩

/-- C5 counterexample: a model name with no declared dimensionality does
not fail — `getEmbeddingDimensions` returns the fallback `3072`. -/
theorem getEmbeddingDimensions_unknown_default :
    EMBEDDING_DIMENSIONS "qmd/unknown-model" = none ∧
    getEmbeddingDimensions "qmd/unknown-model" = 3072 := by
  exact ⟨by decide, by decide⟩

/-- C5 (amended): asking for the dimensionality of a model with no
declared dimensionality silently falls back to the default `3072` (the
`text-embedding-3-large` dimensionality) instead of failing. -/
theorem getEmbeddingDimensions_unknown_fallback (m : String)
    (h : EMBEDDING_DIMENSIONS m = none) :
    getEmbeddingDimensions m = 3072 := by
  unfold getEmbeddingDimensions
  rw [h]
  rfl

/-- C5 witness. -/
theorem getEmbeddingDimensions_unknown_fallback_witness :
    getEmbeddingDimensions "qmd/some-new-model" = 3072 :=
  getEmbeddingDimensions_unknown_fallback "qmd/some-new-model" (by decide)

/-- C6: constructing the client with no API key in the configuration
(absent or empty) and none in the environment (unset or empty) throws the
"API key required" error, so no instance is produced. -/
theorem makeOpenRouterLLM_missingKey (config : OpenRouterConfig)
    (env : String → Option String)
    (hc : config.apiKey = none ∨ config.apiKey = some "")
    (he : env "OPENROUTER_API_KEY" = none ∨ env "OPENROUTER_API_KEY" = some "") :
    makeOpenRouterLLM config env =
      .error "OpenRouter API key required. Set OPENROUTER_API_KEY environment variable." := by
  unfold makeOpenRouterLLM
  have h1 : jsOrS (env "OPENROUTER_API_KEY") "" = "" := by
    rcases he with h | h <;> simp [jsOrS, h]
  have h2 : jsOrS config.apiKey (jsOrS (env "OPENROUTER_API_KEY") "") = "" := by
    rw [h1]
    rcases hc with h | h <;> simp [jsOrS, h]
  simp [h2]

/-- Sorting by the explicit `index` field recovers the unique strictly
index-sorted arrangement of any permutation of it. -/
theorem sortByIndex_perm_strictSorted {data canon : List BatchItem}
    (hperm : data.Perm canon)
    (hsorted : canon.Pairwise (fun a b => a.index < b.index)) :
    sortByIndex data = canon := by
  have hperm2 : (sortByIndex data).Perm canon :=
    (List.mergeSort_perm data _).trans hperm
  have hle : (sortByIndex data).Pairwise (fun a b => a.index ≤ b.index) := by
    have h := @List.sorted_mergeSort BatchItem
      (fun a b : BatchItem => decide (a.index ≤ b.index))
      (fun a b c hab hbc =>
        decide_eq_true (Nat.le_trans (of_decide_eq_true hab) (of_decide_eq_true hbc)))
      (fun a b => by
        rcases Nat.le_total a.index b.index with h | h <;> simp [h])
      data
    exact h.imp (fun hab => of_decide_eq_true hab)
  have hnodupCanon : (canon.map BatchItem.index).Nodup :=
    List.pairwise_map.mpr (hsorted.imp (fun h => Nat.ne_of_lt h))
  have hnodup : ((sortByIndex data).map BatchItem.index).Nodup :=
    ((hperm2.map BatchItem.index).nodup_iff).mpr hnodupCanon
  have hne : (sortByIndex data).Pairwise (fun a b => a.index ≠ b.index) :=
    List.pairwise_map.mp hnodup
  have hlt : (sortByIndex data).Pairwise (fun a b => a.index < b.index) :=
    (hle.and hne).imp (fun h => Nat.lt_of_le_of_ne h.1 h.2)
  exact List.eq_of_perm_of_sorted hperm2 hlt hsorted

/-- C2: for a non-empty input list and a successful provider response
whose items are any permutation of one item per input (item `k` carrying
the explicit index `k` and the embedding `e k`), `embedBatch` places the
embedding with index `k` at position `k` of its result — so a permuted
response yields exactly the in-order output. -/
theorem embedBatch_alignedByIndex (texts : List String) (e : Nat → List ℚ)
    (m : String) (data : List BatchItem)
    (hne : texts ≠ [])
    (hperm : data.Perm ((List.range texts.length).map
      (fun k => { embedding := e k, index := k }))) :
    embedBatch texts (.ok { data := data, model := m }) =
      (List.range texts.length).map
        (fun k => some { embedding := e k, model := m }) := by
  have hcanon : ((List.range texts.length).map
      (fun k => ({ embedding := e k, index := k } : BatchItem))).Pairwise
      (fun a b => a.index < b.index) := by
    refine List.pairwise_map.mpr ?_
    simpa using List.pairwise_lt_range texts.length
  have hsort := sortByIndex_perm_strictSorted hperm hcanon
  unfold embedBatch
  rw [if_neg (by simpa [List.isEmpty_iff] using hne)]
  show (sortByIndex data).map
      (fun item => some ({ embedding := item.embedding, model := m } :
        EmbeddingResult)) =
    (List.range texts.length).map
      (fun k => some ({ embedding := e k, model := m } : EmbeddingResult))
  rw [hsort, List.map_map]
  rfl

/-- C2 witness: a two-item response delivered in reversed index order is
realigned so that index 0 lands at position 0. -/
theorem embedBatch_alignedByIndex_witness :
    embedBatch ["a", "b"]
        (.ok { data := [⟨[(7 : ℚ)], 1⟩, ⟨[(5 : ℚ)], 0⟩], model := "m" }) =
      [some { embedding := [(5 : ℚ)], model := "m" },
       some { embedding := [(7 : ℚ)], model := "m" }] := by
  have h := embedBatch_alignedByIndex ["a", "b"]
    (fun k => if k = 0 then [(5 : ℚ)] else [(7 : ℚ)]) "m"
    [⟨[(7 : ℚ)], 1⟩, ⟨[(5 : ℚ)], 0⟩] (by decide) (by decide)
  exact h.trans (by decide)

/-- A successful line match only ever yields the types `vec` or `hyde`. -/
theorem matchLine_type {line : List Char} {ty : QueryType} {c : List Char}
    (h : matchLine line = some (ty, c)) :
    ty = QueryType.vec ∨ ty = QueryType.hyde := by
  unfold matchLine at h
  split_ifs at h with h1 h2
  · obtain ⟨c', -, he⟩ := Option.map_eq_some'.mp h
    injection he with h3 h4
    exact Or.inl h3.symm
  · obtain ⟨c', -, he⟩ := Option.map_eq_some'.mp h
    injection he with h3 h4
    exact Or.inr h3.symm

/-- Every queryable produced by the line-parsing loop of `expandQuery`
(everything after the mandatory head) has type `vec` or `hyde` and carries
non-empty text different from the original query. -/
theorem expandQuery_mem_tail {query : String} {r : GenerateResult}
    {x : Queryable} (hx : x ∈ (expandQuery query (.ok (some r))).tail) :
    (x.type = QueryType.vec ∨ x.type = QueryType.hyde) ∧
    x.text ≠ "" ∧ x.text ≠ query := by
  simp only [expandQuery, List.tail_cons] at hx
  rw [List.mem_filterMap] at hx
  obtain ⟨line, -, hf⟩ := hx
  rcases hml : matchLine line with - | ⟨ty, c⟩
  · rw [hml] at hf
    exact absurd hf (by simp)
  · rw [hml] at hf
    simp only at hf
    split_ifs at hf with hcond
    cases hf
    exact ⟨matchLine_type hml, hcond.1, hcond.2⟩

/-- C7: every element of the list returned by `expandQuery` has type
`vec` or `hyde` (never `lex`), and every element after index 0 has
non-empty text that differs from the original query string. -/
theorem expandQuery_variants (query : String)
    (gen : Except Unit (Option GenerateResult)) :
    (∀ y ∈ expandQuery query gen,
      y.type = QueryType.vec ∨ y.type = QueryType.hyde) ∧
    (∀ x ∈ (expandQuery query gen).tail,
      x.text ≠ "" ∧ x.text ≠ query) := by
  cases gen with
  | error e =>
    constructor
    · intro y hy
      simp only [expandQuery, List.mem_singleton] at hy
      subst hy
      exact Or.inl rfl
    · intro x hx
      simp [expandQuery] at hx
  | ok o =>
    cases o with
    | none =>
      constructor
      · intro y hy
        simp only [expandQuery, List.mem_singleton] at hy
        subst hy
        exact Or.inl rfl
      · intro x hx
        simp [expandQuery] at hx
    | some r =>
      constructor
      · intro y hy
        rw [show expandQuery query (.ok (some r)) =
            ⟨QueryType.vec, query⟩ :: (expandQuery query (.ok (some r))).tail
          from rfl, List.mem_cons] at hy
        rcases hy with hy | hy
        · subst hy
          exact Or.inl rfl
        · exact (expandQuery_mem_tail hy).1
      · intro x hx
        exact (expandQuery_mem_tail hx).2

/-- C7 witness: a well-formed two-line model output yields a `vec` and a
`hyde` variant, and the `hyde` variant in the tail is non-empty and
differs from the query. -/
theorem expandQuery_variants_witness :
    ((⟨QueryType.hyde, "beta doc"⟩ : Queryable).type = QueryType.vec ∨
     (⟨QueryType.hyde, "beta doc"⟩ : Queryable).type = QueryType.hyde) ∧
    ("beta doc" : String) ≠ "" ∧ ("beta doc" : String) ≠ "q" := by
  have h := expandQuery_variants "q"
    (.ok (some ⟨"vec: alpha\nhyde: beta doc", "m", true⟩))
  have hm : (⟨QueryType.hyde, "beta doc"⟩ : Queryable) ∈
      (expandQuery "q"
        (.ok (some ⟨"vec: alpha\nhyde: beta doc", "m", true⟩))).tail := by
    decide
  exact ⟨h.1 _ (List.mem_of_mem_tail hm), h.2 _ hm⟩

/-- C9: the module-level default LLM of `llm.ts` is a lazily created
singleton: a first call constructs and stores a fresh instance, subsequent
calls return the stored instance unchanged; `setDefaultLLM none` and
`disposeDefaultLLM` clear the stored instance, after which the next call
constructs a fresh (distinct) instance; `disposeDefaultLLM` disposes the
held instance before clearing it and does nothing when none is held. -/
theorem defaultLLM_singleton (s : SingletonState) :
    (s.defaultLLM = none → getDefaultLLM s =
      (s.nextId, { s with defaultLLM := some s.nextId, nextId := s.nextId + 1 })) ∧
    (∀ i, s.defaultLLM = some i → getDefaultLLM s = (i, s)) ∧
    (setDefaultLLM none s).defaultLLM = none ∧
    (disposeDefaultLLM s).defaultLLM = none ∧
    (getDefaultLLM (setDefaultLLM none s)).1 = s.nextId ∧
    (getDefaultLLM (disposeDefaultLLM s)).1 = s.nextId ∧
    (∀ i, s.defaultLLM = some i → i < s.nextId →
      (getDefaultLLM (disposeDefaultLLM s)).1 ≠ i) ∧
    (∀ i, s.defaultLLM = some i → disposeDefaultLLM s =
      { s with defaultLLM := none, disposed := s.disposed ++ [i] }) ∧
    (s.defaultLLM = none → disposeDefaultLLM s = s) := by
  rcases hd : s.defaultLLM with - | i0 <;>
    refine ⟨?_, ?_, ?_, ?_, ?_, ?_, ?_, ?_, ?_⟩ <;>
    simp [getDefaultLLM, setDefaultLLM, disposeDefaultLLM, hd] <;>
    omega

/-- C9 witness. -/
theorem defaultLLM_singleton_witness :
    getDefaultLLM ⟨some 3, 7, []⟩ = (3, ⟨some 3, 7, []⟩) ∧
    disposeDefaultLLM ⟨some 3, 7, []⟩ = ⟨none, 7, [3]⟩ ∧
    (getDefaultLLM (disposeDefaultLLM ⟨some 3, 7, []⟩)).1 = 7 ∧
    (getDefaultLLM (disposeDefaultLLM ⟨some 3, 7, []⟩)).1 ≠ 3 ∧
    disposeDefaultLLM ⟨none, 5, []⟩ = ⟨none, 5, []⟩ ∧
    getDefaultLLM ⟨none, 5, []⟩ = (5, ⟨some 5, 6, []⟩) := by
  obtain ⟨-, h2, -, -, -, h6, h7, h8, -⟩ := defaultLLM_singleton ⟨some 3, 7, []⟩
  obtain ⟨g1, -, -, -, -, -, -, -, g9⟩ := defaultLLM_singleton ⟨none, 5, []⟩
  exact ⟨h2 3 rfl, h8 3 rfl, h6, h7 3 rfl (by norm_num), g9 rfl, g1 rfl⟩

/-- C6 witness. -/
theorem makeOpenRouterLLM_missingKey_witness :
    makeOpenRouterLLM {} (fun _ => none) =
      .error "OpenRouter API key required. Set OPENROUTER_API_KEY environment variable." :=
  makeOpenRouterLLM_missingKey {} (fun _ => none) (Or.inl rfl) (Or.inl rfl)

end Qmd
